import Mathlib

/-!
Shallow embedding of the GlobalPlatform content-management agent
(`src/utils/scp02.py`, `src/utils/scp03.py`, `src/utils/gpagent.py`,
`src/utils/tlvparser.py`, `src/utils/gpdata.py`, `src/utils/gpregistry.py`).

Conventions used throughout:
* Python byte strings / lists of ints are `List Nat` (each element a byte value).
* Python functions that can raise (`IndexError`, `ValueError`,
  `UnboundLocalError`, `TypeError`) are embedded as `Option`-valued
  functions; `none` means the Python code raises.
* The external `pycryptodome` block ciphers (`AES`, `DES`, `DES3`) are
  abstracted as function parameters `List Nat → List Nat → List Nat`
  (key → one block → one block); the CBC chaining mode that the source
  builds on top of them is embedded concretely.
* `CMAC.new(key, ciphermod=AES); update(m); digest()` is abstracted as a
  function parameter `List Nat → List Nat → List Nat` (key → message → tag).
-/

namespace Capastrophic

/-! ## Generic byte-list helpers -/

/-- Big-endian bytes of `n`, `len` bytes wide: Python `n.to_bytes(len, "big")`
(the embedding assumes `n < 256 ^ len`, which holds at every use site below). -/
def natToBytesBE (len n : Nat) : List Nat :=
  (List.range len).map (fun i => n / 256 ^ (len - 1 - i) % 256)

/-- Python `int.from_bytes(bs, "big")` (and `int(hexstr, 16)` for the hex
string of `bs`); `int.from_bytes(b"") = 0`. -/
def bytesToNatBE (bs : List Nat) : Nat :=
  bs.foldl (fun a b => a * 256 + b) 0

/-- Python slice `l[-n:]`. -/
def takeLast (n : Nat) (l : List Nat) : List Nat :=
  l.drop (l.length - n)

/-- Byte-wise XOR of two equal-length blocks (the XOR inside CBC mode). -/
def xorBytes (a b : List Nat) : List Nat :=
  List.zipWith Nat.xor a b

/-- CBC-mode encryption built over an abstract block cipher `blockE`
(`key → block → block`), block size `bs`, fuel-driven recursion
(`fuel = data.length` always suffices because every step consumes at least
one byte when `1 ≤ bs`).  Mirrors `Crypto.Cipher.*.new(key, MODE_CBC, iv)
.encrypt(data)` as used by the source. -/
def cbcEncryptAux (blockE : List Nat → List Nat → List Nat) (key : List Nat)
    (bs : Nat) : Nat → List Nat → List Nat → List Nat
  | 0, _, _ => []
  | fuel + 1, iv, data =>
    if data = [] then []
    else
      let c := blockE key (xorBytes iv (data.take bs))
      c ++ cbcEncryptAux blockE key bs fuel c (data.drop bs)

/-- CBC encryption of `data` with IV `iv`. -/
def cbcEncrypt (blockE : List Nat → List Nat → List Nat) (bs : Nat)
    (key iv data : List Nat) : List Nat :=
  cbcEncryptAux blockE key bs data.length iv data

/-- `src/utils/scp03.py::SCP03._pad_80` / `src/utils/scp02.py::SCP02._pad_80`:
`padding_length = (blockSize - len % blockSize) or blockSize`, then
append `0x80` and `padding_length - 1` zero bytes. -/
def pad80 (blockSize : Nat) (data : List Nat) : List Nat :=
  let remainder := data.length % blockSize
  let paddingLength := if blockSize - remainder = 0 then blockSize else blockSize - remainder
  data ++ 0x80 :: List.replicate (paddingLength - 1) 0

/-! ## SCP03 engine (`src/utils/scp03.py`) -/

/-- The mutable state of a `SCP03` object (scp03.py:23-37, 212-220, 276-282).
`session_enc`/`session_mac` are `Option` because the source holds `None`
there before key derivation and after `reset_session` (using them then
raises).  `challenges_len`, `mac_len`, `host_challenge` and `card_challenge`
are the attributes assigned by `initialize_update`. -/
structure SCP03State where
  sec_level : Nat
  session_enc : Option (List Nat)
  session_mac : Option (List Nat)
  mac_chain : List Nat
  encryption_counter : Nat
  is_mutually_authenticated : Bool
  challenges_len : Nat
  mac_len : Nat
  host_challenge : List Nat
  card_challenge : List Nat
  i_param : Nat
deriving DecidableEq

/-- `SCP03.reset_session` (scp03.py:276-282). -/
def scp03_reset_session (s : SCP03State) : SCP03State :=
  { s with
    sec_level := 0
    session_enc := none
    session_mac := none
    mac_chain := List.replicate 16 0
    encryption_counter := 0
    is_mutually_authenticated := false }

/-- `SCP03._calc_mac` (scp03.py:93-100): extend the CMAC chain over
`mac_chain ++ command` and emit its first `mac_len` bytes.  Returns
`(new_mac_chain, mac)`. -/
def scp03_calc_mac (cmacF : List Nat → List Nat → List Nat) (sessionMac : List Nat)
    (macChain : List Nat) (macLen : Nat) (command : List Nat) : List Nat × List Nat :=
  let chain := cmacF sessionMac (macChain ++ command)
  (chain, chain.take macLen)

/-- `SCP03.send_secure_apdu` (scp03.py:39-86).  `aesE` abstracts one-block
AES encryption (the IV fed to `AES.new(..., MODE_CBC, iv)` is built here
exactly as in the source: the raw encryption counter as 16 big-endian
bytes).  `none` means the Python code raises (command shorter than the
5-byte header, or a session key that is `None` when needed).  Returns the
updated state and the byte list handed to `card_connection.send_apdu`. -/
def scp03_send_secure_apdu (aesE cmacF : List Nat → List Nat → List Nat)
    (s0 : SCP03State) (command : List Nat) : Option (SCP03State × List Nat) :=
  let s := if command.take 3 = [0x00, 0xA4, 0x04] then scp03_reset_session s0 else s0
  match command with
  | c0 :: c1 :: c2 :: c3 :: _ :: data =>
    let encOpt : Option (List Nat) :=
      if data ≠ [] ∧ s.sec_level &&& 0x02 ≠ 0 then
        match s.session_enc with
        | some k =>
          some (cbcEncrypt aesE 16 k (natToBytesBE 16 s.encryption_counter) (pad80 16 data))
        | none => none
      else some data
    match encOpt with
    | none => none
    | some encryptedData =>
      let macOpt : Option (List Nat × List Nat) :=
        if s.sec_level &&& 0x01 ≠ 0 then
          match s.session_mac with
          | some km =>
            some (scp03_calc_mac cmacF km s.mac_chain s.mac_len
              ([c0 ||| 0x04, c1, c2, c3, encryptedData.length + s.mac_len] ++ encryptedData))
          | none => none
        else some (s.mac_chain, [])
      match macOpt with
      | none => none
      | some (chain, mac) =>
        let s1 := { s with mac_chain := chain }
        let secureCommand :=
          if s1.sec_level = 0 then command
          else
            [c0 ||| 0x04, c1, c2, c3, (encryptedData ++ mac).length] ++ encryptedData ++ mac
        let s2 :=
          if s1.is_mutually_authenticated then
            { s1 with encryption_counter := s1.encryption_counter + 1 }
          else s1
        some (s2, secureCommand)
  | _ => none

/-- `SCP03.external_authenticate` (scp03.py:102-145).  The card's status
words are inputs.  Returns the updated state, the success flag and the
EXTERNAL AUTHENTICATE APDU that was sent. -/
def scp03_external_authenticate (cmacF : List Nat → List Nat → List Nat)
    (s : SCP03State) (secLevel sw1 sw2 : Nat) :
    Option (SCP03State × Bool × List Nat) :=
  match s.session_mac with
  | none => none
  | some km =>
    let hostCryptogramBitLength := s.challenges_len * 8
    let derivationData :=
      List.replicate 11 0 ++ [0x01] ++ [0x00] ++
        natToBytesBE 2 hostCryptogramBitLength ++ [0x01] ++
        s.host_challenge ++ s.card_challenge
    let hostCryptogram := (cmacF km derivationData).take s.challenges_len
    let apduWithoutMac :=
      [0x84, 0x82, secLevel, 0x00, s.challenges_len + s.mac_len] ++ hostCryptogram
    let step := scp03_calc_mac cmacF km s.mac_chain s.mac_len apduWithoutMac
    let s1 := { s with mac_chain := step.1 }
    let apdu := apduWithoutMac ++ step.2
    if sw1 = 0x90 ∧ sw2 = 0x00 then
      some ({ s1 with
        sec_level := secLevel
        encryption_counter := 1
        is_mutually_authenticated := true }, true, apdu)
    else
      some (s1, false, apdu)

/-- The request-building part of `SCP03.initialize_update` (scp03.py:212-228):
reset, fix `challenges_len` from the low bit of the i-parameter, then build
the INITIALIZE UPDATE APDU.  The freshly drawn random challenge of line 219
is immediately overwritten on line 220 by the fixed byte string
`AC0C5EFFBFC1E314`, which is therefore the challenge actually sent. -/
def scp03_init_update_request (s0 : SCP03State) : SCP03State × List Nat :=
  let s := scp03_reset_session s0
  let challengesLen := if s.i_param &&& 0x01 = 0x01 then 16 else 8
  let hostChallenge := [0xAC, 0x0C, 0x5E, 0xFF, 0xBF, 0xC1, 0xE3, 0x14]
  let s1 := { s with
    challenges_len := challengesLen
    mac_len := challengesLen
    host_challenge := hostChallenge }
  (s1, [0x80, 0x50, 0x00, 0x00, hostChallenge.length] ++ hostChallenge)

/-- Sequencing a list of commands through `scp03_send_secure_apdu`,
collecting the transmitted byte lists (`none` as soon as one call raises). -/
def scp03_run (aesE cmacF : List Nat → List Nat → List Nat) :
    SCP03State → List (List Nat) → Option (SCP03State × List (List Nat))
  | s, [] => some (s, [])
  | s, c :: cs =>
    match scp03_send_secure_apdu aesE cmacF s c with
    | none => none
    | some (s1, sent) =>
      match scp03_run aesE cmacF s1 cs with
      | none => none
      | some (s2, sents) => some (s2, sent :: sents)

/-! ## SCP02 engine (`src/utils/scp02.py`) -/

/-- The mutable state of a `SCP02` object (scp02.py:20-32, 213-218).
`session_*` and `last_mac` are `Option` because the source holds `None`
there before key derivation / before the first MAC.  `sequence_counter`,
`card_challenge` and `host_challenge` are the attributes assigned by
`initialize_update`. -/
structure SCP02State where
  sec_level : Nat
  static_enc : List Nat
  static_mac : List Nat
  static_dek : List Nat
  session_enc : Option (List Nat)
  session_mac : Option (List Nat)
  session_dek : Option (List Nat)
  last_mac : Option (List Nat)
  sequence_counter : List Nat
  card_challenge : List Nat
  host_challenge : List Nat
deriving DecidableEq

/-- `SCP02.reset_session` (scp02.py:213-218). -/
def scp02_reset_session (s : SCP02State) : SCP02State :=
  { s with
    sec_level := 0
    session_enc := none
    session_mac := none
    session_dek := none
    last_mac := none }

/-- `SCP02._calc_mac` (scp02.py:75-93), the SCP02 retail MAC: pad the
command, IV is zero for the first MAC and `DES-ECB(S_MAC[0:8], last_mac)`
afterwards, single-DES CBC over the padded command, then DES-decrypt the
last block under `S_MAC[8:16]` and DES-encrypt the result under
`S_MAC[0:8]`.  `desE`/`desD` abstract one-block DES encryption/decryption.
Returns `(mac, new_last_mac)` (the source returns `last_mac` itself, so the
two components are the same 8-byte value). -/
def scp02_calc_mac (desE desD : List Nat → List Nat → List Nat)
    (sessionMac : List Nat) (lastMac : Option (List Nat)) (command : List Nat) :
    List Nat × List Nat :=
  let padded := pad80 8 command
  let iv := match lastMac with
    | none => List.replicate 8 0
    | some lm => desE (sessionMac.take 8) lm
  let step1 := cbcEncrypt desE 8 (sessionMac.take 8) iv padded
  let step2 := desD ((sessionMac.drop 8).take 8) (takeLast 8 step1)
  let newLast := desE (sessionMac.take 8) (takeLast 8 step2)
  (newLast, newLast)

/-- `SCP02.send_secure_apdu` (scp02.py:34-68).  `des3E` abstracts one-block
3DES encryption.  In the source, `mac` is assigned only when the C-MAC bit
is set and `encrypted_data` only when `lc > 5` and the C-DECRYPTION bit is
set; the branch for security level C-MAC+C-DECRYPTION reads both, and any
other non-zero, non-C-MAC level leaves `secure_command` unbound — those
`UnboundLocalError` paths (and `None` session keys) are the `none` results. -/
def scp02_send_secure_apdu (desE desD des3E : List Nat → List Nat → List Nat)
    (s0 : SCP02State) (command : List Nat) : Option (SCP02State × List Nat) :=
  let s := if command.take 3 = [0x00, 0xA4, 0x04] then scp02_reset_session s0 else s0
  match command with
  | c0 :: c1 :: c2 :: c3 :: c4 :: rest =>
    let macStep : Option (Option (List Nat × SCP02State)) :=
      if s.sec_level &&& 0x01 ≠ 0 then
        match s.session_mac with
        | none => none
        | some smac =>
          let mk := scp02_calc_mac desE desD smac s.last_mac
            ([c0 ||| 0x04, c1, c2, c3, c4 + 8] ++ rest)
          some (some (mk.1, { s with last_mac := some mk.2 }))
      else some none
    match macStep with
    | none => none
    | some macVal =>
      let s1 := match macVal with
        | some (_, st) => st
        | none => s
      let encStep : Option (Option (List Nat)) :=
        if 5 < c4 ∧ s1.sec_level &&& 0x02 ≠ 0 then
          match s1.session_enc with
          | none => none
          | some senc =>
            some (some (cbcEncrypt des3E 8 senc (List.replicate 8 0) (pad80 8 rest)))
        else some none
      match encStep with
      | none => none
      | some encVal =>
        if s1.sec_level = 0 then some (s1, command)
        else if s1.sec_level = 0x01 then
          match macVal with
          | some (mac, _) => some (s1, [c0 ||| 0x04, c1, c2, c3, c4 + 8] ++ rest ++ mac)
          | none => none
        else if s1.sec_level = 0x01 ||| 0x02 then
          match macVal, encVal with
          | some (mac, _), some enc =>
            some (s1, [c0 ||| 0x04, c1, c2, c3, mac.length + enc.length] ++ enc ++ mac)
          | _, _ => none
        else none
  | _ => none

/-- `const.SCP02_GP_DERIVATION_CONST_ENC_SESSION_KEY` (const.py:26). -/
def scp02DerivationConstEnc : List Nat := [0x01, 0x82]

/-- `SCP02._calc_session_key` (scp02.py:133-148): 3DES-CBC of
`derivation_const ‖ sequence_counter ‖ 12 zero bytes` under the static key
with zero IV, expanded to 24 bytes by appending the first 8 bytes. -/
def scp02_calc_session_key (des3E : List Nat → List Nat → List Nat)
    (staticKey derivationConst sequenceCounter : List Nat) : List Nat :=
  let derivationData := derivationConst ++ sequenceCounter ++ List.replicate 12 0
  let parts := cbcEncrypt des3E 8 staticKey (List.replicate 8 0) derivationData
  parts ++ parts.take 8

/-- The `session_enc` assignment of `SCP02.initialize_update`
(scp02.py:168-172): the ENC session key is derived with the constant
`0182`. -/
def scp02_derive_session_enc (des3E : List Nat → List Nat → List Nat)
    (s : SCP02State) : List Nat :=
  scp02_calc_session_key des3E s.static_enc scp02DerivationConstEnc s.sequence_counter

/-- `SCP02.external_authenticate` (scp02.py:95-131).  The card's status
words are inputs.  Returns the updated state, the success flag and the
EXTERNAL AUTHENTICATE APDU that was sent. -/
def scp02_external_authenticate (desE desD des3E : List Nat → List Nat → List Nat)
    (s : SCP02State) (secLevel sw1 sw2 : Nat) :
    Option (SCP02State × Bool × List Nat) :=
  match s.session_enc with
  | none => none
  | some senc =>
    let paddingDes := [0x80, 0x00, 0x00, 0x00, 0x00, 0x00, 0x00, 0x00]
    let hostAuthData :=
      s.sequence_counter ++ s.card_challenge ++ s.host_challenge ++ paddingDes
    let hostCryptogram := takeLast 8 (cbcEncrypt des3E 8 senc (List.replicate 8 0) hostAuthData)
    let apduWithoutMac := [0x84, 0x82, secLevel, 0x00, 0x08 + 0x08] ++ hostCryptogram
    match s.session_mac with
    | none => none
    | some smac =>
      let step := scp02_calc_mac desE desD smac s.last_mac apduWithoutMac
      let s1 := { s with last_mac := some step.2 }
      let apdu := apduWithoutMac ++ step.1
      if sw1 = 0x90 ∧ sw2 = 0x00 then
        some ({ s1 with sec_level := secLevel }, true, apdu)
      else some (s1, false, apdu)

/-! ## GP agent LOAD path (`src/utils/gpagent.py`) -/

/-- Fuel-driven bit-counting helper (structural, so that it reduces inside
the kernel); `fuel = n` always suffices. -/
def natBitLengthAux : Nat → Nat → Nat
  | 0, _ => 0
  | fuel + 1, n => if n = 0 then 0 else natBitLengthAux fuel (n / 2) + 1

/-- Python `int.bit_length()`. -/
def natBitLength (n : Nat) : Nat :=
  natBitLengthAux n n

/-- `GPAgent._get_encoded_length` (gpagent.py:340-350): BER length, short form
for `length ≤ 0x7F`, else `0x80 | num_length_bytes` followed by the big-endian
bytes. -/
def get_encoded_length (length : Nat) : List Nat :=
  if length ≤ 0x7F then [length]
  else
    let neededBytes := (natBitLength length + 7) / 8
    (0x80 ||| neededBytes) :: natToBytesBE neededBytes length

/-- Fuel-driven helper for `defaultChunks`; `fuel = l.length` always
suffices because every step consumes at least one byte. -/
def defaultChunksAux : Nat → List Nat → List (List Nat)
  | 0, _ => []
  | fuel + 1, l =>
    if l = [] then [] else l.take 100 :: defaultChunksAux fuel (l.drop 100)

/-- The default-size chunking
`[b[i:i+100] for i in range(0, len(b), 100)]` (gpagent.py:355-358, 380-387). -/
def defaultChunks (l : List Nat) : List (List Nat) :=
  defaultChunksAux l.length l

/-- The hint-consuming loop of `GPAgent._get_load_chunks`
(gpagent.py:366-377): consume `chunk_sizes` from the front while each
requested size fits in the remaining bytes, returning the consumed chunks
and the remaining bytes. -/
def hintChunks (l : List Nat) : List Nat → List (List Nat) × List Nat
  | [] => ([], l)
  | sz :: rest =>
    if l.length < sz then ([], l)
    else
      let step := hintChunks (l.drop sz) rest
      (l.take sz :: step.1, step.2)

/-- `GPAgent._get_load_chunks` (gpagent.py:352-391).  For tail-applied hints
the source reverses the data and the size list, chunks, then reverses the
chunk list and each chunk. -/
def get_load_chunks (block : List Nat) (chunkSizes : List Nat)
    (applySizesToHead : Bool) : List (List Nat) :=
  if chunkSizes = [] then defaultChunks block
  else if applySizesToHead then
    let step := hintChunks block chunkSizes
    step.1 ++ defaultChunks step.2
  else
    let step := hintChunks block.reverse chunkSizes.reverse
    ((step.1 ++ defaultChunks step.2).reverse).map List.reverse

/-- The load-file data block of `GPAgent.load_cap` (gpagent.py:456-459):
`b"\xc4" + encoded_length + load_file_data` where `load_file_data` is the
concatenation of the (already ordered) component byte strings. -/
def load_file_data_block (components : List (List Nat)) : List Nat :=
  let loadFileData := components.flatten
  0xC4 :: get_encoded_length loadFileData.length ++ loadFileData

/-- The LOAD APDUs built by `GPAgent.load_cap` (gpagent.py:465-470):
`[0x80, 0xE8, p1, chunk_id, len(chunk)] + chunk` with `p1 = 0x80` on the last
chunk and `0x00` otherwise, `chunk_id` the plain `enumerate` index. -/
def load_apdus (chunks : List (List Nat)) : List (List Nat) :=
  chunks.enum.map (fun p =>
    [0x80, 0xE8, if p.1 = chunks.length - 1 then 0x80 else 0x00, p.1, p.2.length] ++ p.2)

/-- The full sequence of LOAD APDUs that one `load_cap` call emits for the
given ordered components and chunk-size hints. -/
def load_cap_apdus (components : List (List Nat)) (chunkSizes : List Nat)
    (applySizesToHead : Bool) : List (List Nat) :=
  load_apdus (get_load_chunks (load_file_data_block components) chunkSizes applySizesToHead)

/-- A concrete stand-in block cipher (adds one to every byte).  It is used
only to exhibit, on a fully concrete input, that the two IV choices of claim
C1 produce different ciphertexts; the SCP03 embedding itself keeps the block
cipher abstract. -/
def toyBlockCipher (_key block : List Nat) : List Nat :=
  block.map (fun b => (b + 1) % 256)

/-! ## Python values

The registry decoders return nested Python lists mixing byte lists,
strings and lists of lists.  `PyVal` models such a value; a Python list is
a `nil`/`cons` chain so that the empty list has a single representation
regardless of what it would have held. -/

inductive PyVal where
  | int : Nat → PyVal
  | str : String → PyVal
  | nil : PyVal
  | cons : PyVal → PyVal → PyVal
deriving DecidableEq

/-- A Python list of values. -/
def pyList : List PyVal → PyVal
  | [] => .nil
  | x :: xs => .cons x (pyList xs)

/-- A Python list of byte values (`list(bytes...)`). -/
def pyBytes (bs : List Nat) : PyVal :=
  pyList (bs.map PyVal.int)

/-! ## BER-TLV parser (`src/utils/tlvparser.py`)

The source keys nodes by `tag.hex().upper()` and stores primitive values as
`value.hex().upper()`; because byte-list ↔ hex-string conversion is a
bijection, tags and primitive values are modelled as the underlying byte
lists and the source's string comparisons (`tag == "4F"`, …) as byte-list
comparisons, with `bytes.fromhex`/`int(value, 16)` becoming the identity /
`bytesToNatBE`. -/

mutual
inductive TLVNode where
  | mk (tag : List Nat) (len : Nat) (val : TLVVal)
inductive TLVVal where
  | prim (value : List Nat)
  | ctor (children : List TLVNode)
end

/-- The `while data[index] & 0x80` continuation loop of `parse_tag`
(tlvparser.py:10-14); `none` is Python's `IndexError`. -/
def parse_tag_loop : Nat → List Nat → Nat → List Nat → Option (List Nat × Nat)
  | 0, _, _, _ => none
  | fuel + 1, data, index, acc =>
    match data.get? index with
    | none => none
    | some b =>
      if b &&& 0x80 ≠ 0 then parse_tag_loop fuel data (index + 1) (acc ++ [b])
      else some (acc ++ [b], index + 1)

/-- `parse_tag` (tlvparser.py:5-15). -/
def parse_tag (data : List Nat) (index : Nat) : Option (List Nat × Nat) :=
  match data.get? index with
  | none => none
  | some b0 =>
    if b0 &&& 0x1F = 0x1F then parse_tag_loop (data.length + 1) data (index + 1) [b0]
    else some ([b0], index + 1)

/-- `parse_length` (tlvparser.py:18-26); a long-form slice that runs off the
end is silently short, as with Python slicing. -/
def parse_length (data : List Nat) (index : Nat) : Option (Nat × Nat) :=
  match data.get? index with
  | none => none
  | some lb =>
    if lb < 0x80 then some (lb, index + 1)
    else
      let numBytes := lb &&& 0x7F
      some (bytesToNatBE ((data.drop (index + 1)).take numBytes), index + 1 + numBytes)

/-- `parse_ber_tlv` (tlvparser.py:29-55), fuel-driven (each loop step
consumes at least two bytes and each nested call parses a strictly shorter
slice, so `data.length + 1` fuel always suffices).  A node is constructed
iff bit 0x20 of its first tag byte is set; constructed values are parsed
recursively. -/
def parse_ber_tlv_aux : Nat → List Nat → Nat → Option (List TLVNode)
  | 0, _, _ => none
  | fuel + 1, data, index =>
    if data.length ≤ index then some []
    else
      match parse_tag data index with
      | none => none
      | some (tag, i1) =>
        match parse_length data i1 with
        | none => none
        | some (len, i2) =>
          let value := (data.drop i2).take len
          if tag.headD 0 &&& 0x20 = 0x20 then
            match parse_ber_tlv_aux fuel value 0 with
            | none => none
            | some children =>
              match parse_ber_tlv_aux fuel data (i2 + len) with
              | none => none
              | some rest => some (TLVNode.mk tag len (TLVVal.ctor children) :: rest)
          else
            match parse_ber_tlv_aux fuel data (i2 + len) with
            | none => none
            | some rest => some (TLVNode.mk tag len (TLVVal.prim value) :: rest)

/-- `parse_ber_tlv(data)` on a whole byte string. -/
def parse_ber_tlv (data : List Nat) : Option (List TLVNode) :=
  parse_ber_tlv_aux (data.length + 1) data 0

/-- `find_all_nested_tags` (tlvparser.py:80-103), recursion on the tag
path: at the final path element collect the node's value; otherwise recurse
into constructed values only. -/
def find_all_nested_tags_core : List (List Nat) → List TLVNode → List TLVVal
  | [], _ => []
  | t :: rest, nodes =>
    nodes.flatMap fun n =>
      match n with
      | .mk tag _ v =>
        if tag = t then
          match rest with
          | [] => [v]
          | _ :: _ =>
            match v with
            | .ctor children => find_all_nested_tags_core rest children
            | .prim _ => []
        else []

/-- `find_all_nested_tags(tlv_list, tag_sequence)` with the source's
argument order. -/
def find_all_nested_tags (nodes : List TLVNode) (tags : List (List Nat)) : List TLVVal :=
  find_all_nested_tags_core tags nodes

/-! ## GP registry decoding, first implementation (`src/utils/gpdata.py`) -/

/-- The two `component_type` constants (gpdata.py:5-6, gpregistry.py:4-5). -/
inductive CompType where
  | pkg
  | app
deriving DecidableEq

/-- `_get_life_cycle_str` — identical in gpdata.py:9-27 and
gpregistry.py:115-133. -/
def get_life_cycle_str (lifeCycle : Nat) : CompType → String
  | .pkg => if lifeCycle = 0x01 then "LOADED" else "UNKNOWN"
  | .app =>
    if lifeCycle = 0x03 then "INSTALLED"
    else if lifeCycle = 0x07 then "SELECTABLE"
    else if lifeCycle = 0x0F then "PERSONALIZED"
    else if lifeCycle &&& 0x83 = 0x03 then "APP-SPECIFIC"
    else if lifeCycle &&& 0x83 = 0x83 then "LOCKED"
    else "UNKNOWN"

/-- The `BYTE_MAPS` privilege tables, in dict insertion order — identical in
gpdata.py:32-59 and gpregistry.py:138-165. -/
def privByteMaps : List (List (Nat × String)) :=
  [[(0x80, "Security Domain"), (0xC0, "DAP Verification"), (0xA0, "Delegated Management"),
    (0x10, "Card Lock"), (0x08, "Card Terminate"), (0x04, "Card Reset"),
    (0x02, "CVM Management"), (0xC1, "Mandated DAP Verification")],
   [(0x80, "Trusted Path"), (0x40, "Authorized Management"), (0x20, "Token Management"),
    (0x10, "Global Delete"), (0x08, "Global Lock"), (0x04, "Global Registry"),
    (0x02, "Final Application"), (0x01, "Global Service")],
   [(0x80, "Receipt Generation"), (0x40, "CFLDB"), (0x20, "Contactless Activation"),
    (0x10, "Contactless Self-Activation")]]

/-- `_get_priv_str` — identical in gpdata.py:30-72 and
gpregistry.py:136-178: collect every table entry whose mask is fully set in
the corresponding privilege byte, join with `", "`, `"-"` when empty. -/
def get_priv_str (privList : List Nat) : String :=
  let privileges := (privByteMaps.enum.map (fun p =>
    match privList.get? p.1 with
    | none => []
    | some byteValue =>
      p.2.filterMap (fun bm => if byteValue &&& bm.1 = bm.1 then some bm.2 else none))).flatten
  if privileges = [] then "-" else String.intercalate ", " privileges

/-- Accumulator for one application `E3` element in gpdata.py:85-101
(a `defaultdict` whose keys are set at most once per tag occurrence,
later occurrences overwriting earlier ones). -/
structure GpdataAppAcc where
  aid : Option (List Nat)
  life_cycle : Option String
  priv : Option String
  associated_package : Option (List Nat)

/-- One loop step of gpdata.py:86-99.  An empty `9F70` value makes
`int(value, 16)` raise; a constructed value under one of the four tags
would be a Python list and make `bytes.fromhex`/`int` raise. -/
def gpdata_app_step (acc : GpdataAppAcc) (n : TLVNode) : Option GpdataAppAcc :=
  match n with
  | .mk tag _ (.prim v) =>
    if tag = [0x4F] then some { acc with aid := some v }
    else if tag = [0x9F, 0x70] then
      if v = [] then none
      else some { acc with life_cycle := some (get_life_cycle_str (bytesToNatBE v) .app) }
    else if tag = [0xC5] then some { acc with priv := some (get_priv_str v) }
    else if tag = [0xC4] then some { acc with associated_package := some v }
    else some acc
  | .mk tag _ (.ctor _) =>
    if tag = [0x4F] ∨ tag = [0x9F, 0x70] ∨ tag = [0xC5] ∨ tag = [0xC4] then none
    else some acc

/-- One application record (gpdata.py:103-111): `[aid, life_cycle, priv,
associated_package]` with the defaults `[]`, `"-"`, `"-"`, `[]`. -/
def gpdata_app_record (element : List TLVNode) : Option PyVal := do
  let acc ← element.foldlM gpdata_app_step ⟨none, none, none, none⟩
  pure (pyList [pyBytes (acc.aid.getD []), .str (acc.life_cycle.getD "-"),
    .str (acc.priv.getD "-"), pyBytes (acc.associated_package.getD [])])

/-- Accumulator for one package `E3` element in gpdata.py:131-148. -/
structure GpdataPkgAcc where
  aid : Option (List Nat)
  life_cycle : Option String
  applet_classes_aid : List (List Nat)
  package_version : Option (List Nat)

/-- One loop step of gpdata.py:134-146 (`84` is repeatable and appended). -/
def gpdata_pkg_step (acc : GpdataPkgAcc) (n : TLVNode) : Option GpdataPkgAcc :=
  match n with
  | .mk tag _ (.prim v) =>
    if tag = [0x4F] then some { acc with aid := some v }
    else if tag = [0x9F, 0x70] then
      if v = [] then none
      else some { acc with life_cycle := some (get_life_cycle_str (bytesToNatBE v) .pkg) }
    else if tag = [0x84] then
      some { acc with applet_classes_aid := acc.applet_classes_aid ++ [v] }
    else if tag = [0xCE] then some { acc with package_version := some v }
    else some acc
  | .mk tag _ (.ctor _) =>
    if tag = [0x4F] ∨ tag = [0x9F, 0x70] ∨ tag = [0x84] ∨ tag = [0xCE] then none
    else some acc

/-- One package record (gpdata.py:150-158): `[aid, life_cycle,
applet_classes_aid, package_version]` with defaults `[]`, `"-"`, `[]`, `"-"`
(the version, when present, is a byte list). -/
def gpdata_pkg_record (element : List TLVNode) : Option PyVal := do
  let acc ← element.foldlM gpdata_pkg_step ⟨none, none, [], none⟩
  pure (pyList [pyBytes (acc.aid.getD []), .str (acc.life_cycle.getD "-"),
    pyList (acc.applet_classes_aid.map pyBytes),
    match acc.package_version with
    | some v => pyBytes v
    | none => .str "-"])

/-- The modern (`E3`-tagged) application branch of gpdata.py:78-111.  Each
found `E3` value is a children list (iterating a primitive hex string and
subscripting its characters would raise). -/
def gpdata_apps_modern (info : List Nat) : Option (List PyVal) := do
  let parsed ← parse_ber_tlv info
  (find_all_nested_tags parsed [[0xE3]]).mapM fun v =>
    match v with
    | .ctor children => gpdata_app_record children
    | .prim _ => none

/-- The modern (`E3`-tagged) package branch of gpdata.py:127-158. -/
def gpdata_pkgs_modern (info : List Nat) : Option (List PyVal) := do
  let parsed ← parse_ber_tlv info
  (find_all_nested_tags parsed [[0xE3]]).mapM fun v =>
    match v with
    | .ctor children => gpdata_pkg_record children
    | .prim _ => none

/-- The deprecated flat application parser — textually identical in
gpdata.py:113-125 and gpregistry.py:191-203: records of
`aid_len ‖ aid ‖ life_cycle ‖ privilege_byte`; running out of bytes is an
`IndexError`.  Fuel-driven; each record consumes at least three bytes. -/
def registry_flat_apps_aux : Nat → List Nat → Option (List PyVal)
  | 0, _ => none
  | fuel + 1, l =>
    match l with
    | [] => some []
    | aidLen :: rest =>
      if rest.length < aidLen + 2 then none
      else
        let aid := rest.take aidLen
        match rest.drop aidLen with
        | lc :: priv :: r2 =>
          match registry_flat_apps_aux fuel r2 with
          | none => none
          | some tail =>
            some (pyList [pyBytes aid, .str (get_life_cycle_str lc .app),
              .str (get_priv_str [priv]), pyList []] :: tail)
        | _ => none

/-- Deprecated flat application parser on a whole byte string. -/
def registry_flat_apps (l : List Nat) : Option (List PyVal) :=
  registry_flat_apps_aux (l.length + 1) l

/-- The applet-class loop of the deprecated flat package parser
(gpdata.py:169-172 / gpregistry.py:225-228): `n` records of
`aid_len ‖ aid`. -/
def flat_applet_classes : Nat → List Nat → Option (List (List Nat) × List Nat)
  | 0, l => some ([], l)
  | n + 1, l =>
    match l with
    | [] => none
    | classLen :: rest =>
      if rest.length < classLen then none
      else
        match flat_applet_classes n (rest.drop classLen) with
        | none => none
        | some (cs, rem) => some (rest.take classLen :: cs, rem)

/-- The deprecated flat package parser — textually identical in
gpdata.py:160-176 and gpregistry.py:216-231: records of
`aid_len ‖ aid ‖ life_cycle ‖ privileges ‖ class_count ‖ classes…`, the
version always `"-"`. -/
def registry_flat_pkgs_aux : Nat → List Nat → Option (List PyVal)
  | 0, _ => none
  | fuel + 1, l =>
    match l with
    | [] => some []
    | aidLen :: rest =>
      if rest.length < aidLen + 3 then none
      else
        let aid := rest.take aidLen
        match rest.drop aidLen with
        | lc :: _priv :: nClasses :: r2 =>
          match flat_applet_classes nClasses r2 with
          | none => none
          | some (classes, rem) =>
            match registry_flat_pkgs_aux fuel rem with
            | none => none
            | some tail =>
              some (pyList [pyBytes aid, .str (get_life_cycle_str lc .pkg),
                pyList (classes.map pyBytes), .str "-"] :: tail)
        | _ => none

/-- Deprecated flat package parser on a whole byte string. -/
def registry_flat_pkgs (l : List Nat) : Option (List PyVal) :=
  registry_flat_pkgs_aux (l.length + 1) l

/-- `get_parsed_gp_registry_info` (gpdata.py:75-177): dispatch on the first
byte of each stream (`0xE3` → modern TLV form, anything else → deprecated
flat form; an empty stream raises on `[0]`). -/
def gpdata_get_parsed_gp_registry_info (applicationsInfo packagesInfo : List Nat) :
    Option (PyVal × PyVal) := do
  let a0 ← applicationsInfo.head?
  let apps ← if a0 = 0xE3 then gpdata_apps_modern applicationsInfo
             else registry_flat_apps applicationsInfo
  let p0 ← packagesInfo.head?
  let pkgs ← if p0 = 0xE3 then gpdata_pkgs_modern packagesInfo
             else registry_flat_pkgs packagesInfo
  pure (pyList apps, pyList pkgs)

/-! ## GP registry decoding, second implementation (`src/utils/gpregistry.py`) -/

/-- `_read_tag` (gpregistry.py:8-15): unlike tlvparser.py this reads at most
one continuation byte and returns the tag as an integer. -/
def gpreg_read_tag (buf : List Nat) (i : Nat) : Option (Nat × Nat) :=
  match buf.get? i with
  | none => none
  | some t =>
    if t &&& 0x1F = 0x1F then
      match buf.get? (i + 1) with
      | none => none
      | some t2 => some ((t <<< 8) ||| t2, i + 2)
    else some (t, i + 1)

/-- `_read_length` (gpregistry.py:18-26). -/
def gpreg_read_length (buf : List Nat) (i : Nat) : Option (Nat × Nat) :=
  match buf.get? i with
  | none => none
  | some lb =>
    if lb &&& 0x80 ≠ 0 then
      let numLenBytes := lb &&& 0x7F
      some (bytesToNatBE ((buf.drop (i + 1)).take numLenBytes), i + 1 + numLenBytes)
    else some (lb, i + 1)

/-- `parse_tlv` (gpregistry.py:34-46): flat `(tag, value)` pairs over
`buf[start:end)`; note the value slice is over the whole buffer and may run
past `end`, as in the source.  Fuel-driven; each step consumes at least two
positions. -/
def gpreg_parse_tlv_aux : Nat → List Nat → Nat → Nat → Option (List (Nat × List Nat))
  | 0, _, _, _ => none
  | fuel + 1, buf, i, endIdx =>
    if i < endIdx then
      match gpreg_read_tag buf i with
      | none => none
      | some (tag, i1) =>
        match gpreg_read_length buf i1 with
        | none => none
        | some (len, i2) =>
          let value := (buf.drop i2).take len
          match gpreg_parse_tlv_aux fuel buf (i2 + len) endIdx with
          | none => none
          | some rest => some ((tag, value) :: rest)
    else some []

/-- `parse_tlv(buf, start, end)`. -/
def gpreg_parse_tlv (buf : List Nat) (start endIdx : Nat) : Option (List (Nat × List Nat)) :=
  gpreg_parse_tlv_aux (buf.length + 1) buf start endIdx

/-- Hex digit character, as produced by Python `bytes.hex()` (lowercase). -/
def hexDigitChar (n : Nat) : Char :=
  Char.ofNat (if n < 10 then 48 + n else 87 + n)

/-- Python `val.hex()` (lowercase), used by gpregistry.py:100 for the
package version. -/
def hexOfBytes (bs : List Nat) : String :=
  String.mk (bs.flatMap fun b => [hexDigitChar (b / 16), hexDigitChar (b % 16)])

/-- Accumulator for one `E3` element of `parse_e3_sequence`
(gpregistry.py:73-110).  There is no `life_cycle` field: the only tag the
source maps to `life_cycle` is `0x9F7F`, and that branch calls the
two-parameter `_get_life_cycle_str` with a single argument, raising
`TypeError`; any surviving element therefore gets `life_cycle` only from
`setdefault("life_cycle", "-")`. -/
structure GpregElemAcc where
  aid : Option (List Nat)
  applet_classes_aid : List (List Nat)
  priv : Option String
  selection_param : List (List Nat)
  associated_package : Option (List Nat)
  associated_sd : Option (List Nat)
  package_version : Option String

/-- One loop step of gpregistry.py:85-104: repeatable tags (`CF`, `84`) are
appended, a second occurrence of any other mapped tag raises `ValueError`,
tag `0x9F7F` raises `TypeError` (see `GpregElemAcc`), unmapped tags — among
them the real life-cycle tag `0x9F70` — are ignored. -/
def gpreg_elem_step (acc : GpregElemAcc) (tv : Nat × List Nat) : Option GpregElemAcc :=
  if tv.1 = 0x4F then
    if acc.aid.isSome then none else some { acc with aid := some tv.2 }
  else if tv.1 = 0x84 then
    some { acc with applet_classes_aid := acc.applet_classes_aid ++ [tv.2] }
  else if tv.1 = 0x9F7F then none
  else if tv.1 = 0xC5 then
    if acc.priv.isSome then none else some { acc with priv := some (get_priv_str tv.2) }
  else if tv.1 = 0xCF then
    some { acc with selection_param := acc.selection_param ++ [tv.2] }
  else if tv.1 = 0xC4 then
    if acc.associated_package.isSome then none
    else some { acc with associated_package := some tv.2 }
  else if tv.1 = 0xCC then
    if acc.associated_sd.isSome then none
    else some { acc with associated_sd := some tv.2 }
  else if tv.1 = 0xCE then
    if acc.package_version.isSome then none
    else some { acc with package_version := some (hexOfBytes tv.2) }
  else some acc

/-- `parse_e3_sequence` (gpregistry.py:49-112), fuel-driven: every
top-level tag must be `E3` (else `ValueError`), its children are decoded
flat and accumulated per element. -/
def gpreg_parse_e3_aux : Nat → List Nat → Nat → Option (List GpregElemAcc)
  | 0, _, _ => none
  | fuel + 1, buf, i =>
    if i < buf.length then
      match gpreg_read_tag buf i with
      | none => none
      | some (tag, i1) =>
        if tag ≠ 0xE3 then none
        else
          match gpreg_read_length buf i1 with
          | none => none
          | some (len, i2) =>
            match gpreg_parse_tlv buf i2 (i2 + len) with
            | none => none
            | some inner =>
              match inner.foldlM gpreg_elem_step ⟨none, [], none, [], none, none, none⟩ with
              | none => none
              | some elem =>
                match gpreg_parse_e3_aux fuel buf (i2 + len) with
                | none => none
                | some rest => some (elem :: rest)
    else some []

/-- `parse_e3_sequence(buf)` on a whole byte string (the source's
`is_packages_info` parameter is never used). -/
def gpreg_parse_e3_sequence (buf : List Nat) : Option (List GpregElemAcc) :=
  gpreg_parse_e3_aux (buf.length + 1) buf 0

/-- One application record of gpregistry.py:187-190:
`[item["aid"], item["life_cycle"], item["priv"], item["associated_package"]]`
with `defaultdict(list)` defaults (missing `aid`/`priv`/`associated_package`
give `[]`) and `life_cycle` always `"-"` via `setdefault`. -/
def gpreg_app_record (e : GpregElemAcc) : PyVal :=
  pyList [pyBytes (e.aid.getD []), .str "-",
    (match e.priv with
     | some s => .str s
     | none => pyList []),
    pyBytes (e.associated_package.getD [])]

/-- One package record of gpregistry.py:207-215: `[aid, life_cycle,
applet_classes_aid, package_version]`; the version, when present, is the
lowercase hex *string* `val.hex()`. -/
def gpreg_pkg_record (e : GpregElemAcc) : PyVal :=
  pyList [pyBytes (e.aid.getD []), .str "-",
    pyList (e.applet_classes_aid.map pyBytes),
    .str (e.package_version.getD "-")]

/-- `get_parsed_gp_registry_info` (gpregistry.py:181-233): same dispatch as
the gpdata.py implementation, but the modern branch goes through
`parse_e3_sequence`; the deprecated branches are textually identical to
gpdata.py and share the embedding. -/
def gpregistry_get_parsed_gp_registry_info (applicationsInfo packagesInfo : List Nat) :
    Option (PyVal × PyVal) := do
  let a0 ← applicationsInfo.head?
  let apps ← if a0 = 0xE3 then
               (gpreg_parse_e3_sequence applicationsInfo).map (List.map gpreg_app_record)
             else registry_flat_apps applicationsInfo
  let p0 ← packagesInfo.head?
  let pkgs ← if p0 = 0xE3 then
               (gpreg_parse_e3_sequence packagesInfo).map (List.map gpreg_pkg_record)
             else registry_flat_pkgs packagesInfo
  pure (pyList apps, pyList pkgs)

/-! ### Concrete registry inputs for C9 and C10 -/

/-- The GET-STATUS application stream exactly as written in the spec's
"Registry parse — modern form" example:
`E3 12 4F 08 A0000000030000 9F70 01 07 C5 02 9E 80 C4 07 A000000151000000`. -/
def c9_literal_input : List Nat :=
  [0xE3, 0x12, 0x4F, 0x08, 0xA0, 0x00, 0x00, 0x00, 0x03, 0x00, 0x00,
   0x9F, 0x70, 0x01, 0x07, 0xC5, 0x02, 0x9E, 0x80,
   0xC4, 0x07, 0xA0, 0x00, 0x00, 0x01, 0x51, 0x00, 0x00, 0x00]

/-- The same record with consistent TLV lengths (`4F 07` for the 7-byte
AID, `C4 08` for the 8-byte package AID, `E3 1B` for the 27-byte body) and
privilege bytes `80 80` (Security Domain + Trusted Path). -/
def c9_fixed_input : List Nat :=
  [0xE3, 0x1B, 0x4F, 0x07, 0xA0, 0x00, 0x00, 0x00, 0x03, 0x00, 0x00,
   0x9F, 0x70, 0x01, 0x07, 0xC5, 0x02, 0x80, 0x80,
   0xC4, 0x08, 0xA0, 0x00, 0x00, 0x01, 0x51, 0x00, 0x00, 0x00]

/-- A small well-formed deprecated-form package stream: one package with a
5-byte AID, life cycle LOADED, no applet classes. -/
def simple_flat_pkgs : List Nat :=
  [0x05, 0x01, 0x02, 0x03, 0x04, 0x05, 0x01, 0x00, 0x00]

/-- A well-formed modern application stream carrying the real life-cycle
tag `9F70` (value `07`, SELECTABLE) and privileges `9E 80`:
`E3 11 4F 07 A0000000030000 9F70 01 07 C5 02 9E 80`. -/
def c10_modern_apps : List Nat :=
  [0xE3, 0x11, 0x4F, 0x07, 0xA0, 0x00, 0x00, 0x00, 0x03, 0x00, 0x00,
   0x9F, 0x70, 0x01, 0x07, 0xC5, 0x02, 0x9E, 0x80]

/-! ### Chunking lemmas -/

theorem defaultChunksAux_flatten (fuel : Nat) (l : List Nat)
    (hf : l.length ≤ fuel) : (defaultChunksAux fuel l).flatten = l := by
  induction fuel generalizing l with
  | zero =>
    have : l = [] := List.eq_nil_of_length_eq_zero (Nat.le_zero.mp hf)
    simp [this, defaultChunksAux]
  | succ fuel ih =>
    by_cases h : l = []
    · simp [h, defaultChunksAux]
    · rw [defaultChunksAux, if_neg h]
      simp only [List.flatten_cons]
      rw [ih (l.drop 100) (by
        simp only [List.length_drop]
        have : 0 < l.length := List.length_pos.mpr h
        omega)]
      exact List.take_append_drop 100 l

theorem defaultChunks_flatten (l : List Nat) : (defaultChunks l).flatten = l :=
  defaultChunksAux_flatten l.length l le_rfl

theorem hintChunks_flatten (sizes : List Nat) (l : List Nat) :
    (hintChunks l sizes).1.flatten ++ (hintChunks l sizes).2 = l := by
  induction sizes generalizing l with
  | nil => simp [hintChunks]
  | cons sz rest ih =>
    by_cases h : l.length < sz
    · simp [hintChunks, h]
    · simp only [hintChunks, if_neg h, List.flatten_cons, List.append_assoc]
      rw [ih (l.drop sz)]
      exact List.take_append_drop sz l

theorem flatten_map_reverse_reverse (L : List (List Nat)) :
    ((L.map List.reverse).reverse).flatten = L.flatten.reverse := by
  induction L with
  | nil => rfl
  | cons x xs ih => simp [ih]

theorem get_load_chunks_flatten (block : List Nat) (sizes : List Nat) (toHead : Bool) :
    (get_load_chunks block sizes toHead).flatten = block := by
  unfold get_load_chunks
  by_cases h0 : sizes = []
  · simp [h0, defaultChunks_flatten]
  · rw [if_neg h0]
    by_cases hh : toHead = true
    · rw [hh, if_pos rfl]
      show ((hintChunks block sizes).1 ++
        defaultChunks (hintChunks block sizes).2).flatten = block
      rw [List.flatten_append, defaultChunks_flatten]
      exact hintChunks_flatten sizes block
    · rw [eq_false_of_ne_true hh, if_neg (by simp)]
      show ((((hintChunks block.reverse sizes.reverse).1 ++
        defaultChunks (hintChunks block.reverse sizes.reverse).2).reverse).map
          List.reverse).flatten = block
      rw [List.map_reverse, flatten_map_reverse_reverse, List.flatten_append,
        defaultChunks_flatten, hintChunks_flatten, List.reverse_reverse]

theorem load_apdus_payloads (chunks : List (List Nat)) :
    (load_apdus chunks).map (fun a => a.drop 5) = chunks := by
  unfold load_apdus
  rw [List.map_map]
  have : ((fun a => List.drop 5 a) ∘ fun p : Nat × List Nat =>
      [0x80, 0xE8, if p.1 = chunks.length - 1 then 0x80 else 0x00, p.1, p.2.length] ++ p.2)
      = Prod.snd := by
    funext p
    simp
  rw [this, List.enum_map_snd]

/-- C7.  For every `load_cap` invocation — any ordered component list, any
chunk-size hints, applied to head or tail — the concatenation of the data
payloads of the emitted LOAD APDUs equals the tag byte `0xC4`, followed by the
BER length encoding of `n` (short form when `n ≤ 127`, otherwise
`0x80 ||| num_bytes` followed by `n` big-endian), followed by the `n` bytes of
the ordered concatenated component bytes. -/
theorem load_cap_payload_concat (components : List (List Nat))
    (chunkSizes : List Nat) (applySizesToHead : Bool) :
    ((load_cap_apdus components chunkSizes applySizesToHead).map
        (fun a => a.drop 5)).flatten =
      0xC4 ::
        (if components.flatten.length ≤ 127 then [components.flatten.length]
         else
           (0x80 ||| (natBitLength components.flatten.length + 7) / 8) ::
             natToBytesBE ((natBitLength components.flatten.length + 7) / 8)
               components.flatten.length) ++
        components.flatten := by
  unfold load_cap_apdus
  rw [load_apdus_payloads, get_load_chunks_flatten]
  simp [load_file_data_block, get_encoded_length]

/-- C8.  Evaluating the LOAD-APDU builder at a load that produces 258
one-byte chunks: the APDU with chunk index 256 carries the raw index 256 in
its P2 slot (not `256 % 256 = 0`), and the last APDU (index 257) carries
P1 = 0x80 together with the raw index 257.  A value above 255 in a byte slot
is rejected by the byte-level transport, so such a load cannot be sent. -/
theorem load_apdu_p2_no_wrap :
    (load_cap_apdus [List.replicate 255 0xAA] (List.replicate 258 1) true).get? 256 =
        some [0x80, 0xE8, 0x00, 256, 1, 0xAA] ∧
      (load_cap_apdus [List.replicate 255 0xAA] (List.replicate 258 1) true).get? 257 =
        some [0x80, 0xE8, 0x80, 257, 1, 0xAA] ∧
      (256 : Nat) % 256 = 0 := by
  set_option maxRecDepth 10000 in
  refine ⟨?_, ?_, rfl⟩ <;> rfl

/-! ### SCP03 lemmas and theorems -/

theorem scp03_step_counter (aesE cmacF : List Nat → List Nat → List Nat)
    (s : SCP03State) (c : List Nat) (ke km : List Nat)
    (hsel : c.take 3 ≠ [0x00, 0xA4, 0x04]) (hlen : 5 ≤ c.length)
    (he : s.session_enc = some ke) (hm : s.session_mac = some km)
    (ha : s.is_mutually_authenticated = true) :
    ∃ s' sent, scp03_send_secure_apdu aesE cmacF s c = some (s', sent) ∧
      s'.encryption_counter = s.encryption_counter + 1 ∧
      s'.is_mutually_authenticated = true ∧
      s'.session_enc = some ke ∧ s'.session_mac = some km := by
  match c, hlen with
  | c0 :: c1 :: c2 :: c3 :: c4 :: data, _ =>
    rw [scp03_send_secure_apdu, if_neg hsel]
    simp only [he, hm]
    split_ifs with h1 h2 h3 <;> simp_all [scp03_calc_mac]

theorem scp03_run_counter (aesE cmacF : List Nat → List Nat → List Nat)
    (cmds : List (List Nat)) (s : SCP03State) (ke km : List Nat)
    (hsel : ∀ c ∈ cmds, c.take 3 ≠ [0x00, 0xA4, 0x04])
    (hlen : ∀ c ∈ cmds, 5 ≤ c.length)
    (he : s.session_enc = some ke) (hm : s.session_mac = some km)
    (ha : s.is_mutually_authenticated = true) :
    ∃ s' sents, scp03_run aesE cmacF s cmds = some (s', sents) ∧
      s'.encryption_counter = s.encryption_counter + cmds.length ∧
      s'.is_mutually_authenticated = true ∧
      s'.session_enc = some ke ∧ s'.session_mac = some km := by
  induction cmds generalizing s with
  | nil => exact ⟨s, [], rfl, by simp, ha, he, hm⟩
  | cons c cs ih =>
    obtain ⟨s1, sent, hstep, hctr, ha1, he1, hm1⟩ :=
      scp03_step_counter aesE cmacF s c ke km
        (hsel c (List.mem_cons_self c cs)) (hlen c (List.mem_cons_self c cs)) he hm ha
    obtain ⟨s2, sents, hrun, hctr2, ha2, he2, hm2⟩ :=
      ih s1 (fun x hx => hsel x (List.mem_cons_of_mem c hx))
        (fun x hx => hlen x (List.mem_cons_of_mem c hx)) he1 hm1 ha1
    refine ⟨s2, sent :: sents, ?_, ?_, ha2, he2, hm2⟩
    · simp only [scp03_run, hstep, hrun]
    · rw [hctr2, hctr]
      simp only [List.length_cons]
      omega

theorem scp03_extauth_success (cmacF : List Nat → List Nat → List Nat)
    (s : SCP03State) (lvl : Nat) (km : List Nat) (hm : s.session_mac = some km) :
    ∃ s1 apdu, scp03_external_authenticate cmacF s lvl 0x90 0x00 = some (s1, true, apdu) ∧
      s1.encryption_counter = 1 ∧ s1.is_mutually_authenticated = true ∧
      s1.session_enc = s.session_enc ∧ s1.session_mac = some km := by
  rw [scp03_external_authenticate, hm]
  have h90 : ((0x90 : Nat) = 0x90 ∧ (0x00 : Nat) = 0x00) := ⟨rfl, rfl⟩
  simp only [if_pos h90]
  exact ⟨_, _, rfl, rfl, rfl, rfl, rfl⟩

/-- C3.  For every SCP03 session that still holds its session keys, a
successful EXTERNAL AUTHENTICATE sets the encryption counter to 1, and the
counter is then incremented exactly once by every subsequent command passed
through `send_secure_apdu` (whether or not it carries data, at any security
level), so the state in which the (k+1)-th post-authentication secure APDU
is processed carries counter value k+1. -/
theorem scp03_counter_monotonic (aesE cmacF : List Nat → List Nat → List Nat)
    (s : SCP03State) (lvl : Nat) (cmds : List (List Nat)) (k : Nat)
    (ke km : List Nat)
    (he : s.session_enc = some ke) (hm : s.session_mac = some km)
    (hsel : ∀ c ∈ cmds, c.take 3 ≠ [0x00, 0xA4, 0x04])
    (hlen : ∀ c ∈ cmds, 5 ≤ c.length)
    (hk : k ≤ cmds.length) :
    ∃ s1 apdu, scp03_external_authenticate cmacF s lvl 0x90 0x00 = some (s1, true, apdu) ∧
      s1.encryption_counter = 1 ∧
      ∃ sk sents, scp03_run aesE cmacF s1 (cmds.take k) = some (sk, sents) ∧
        sk.encryption_counter = k + 1 := by
  obtain ⟨s1, apdu, hauth, hctr1, ha1, he1, hm1⟩ := scp03_extauth_success cmacF s lvl km hm
  obtain ⟨sk, sents, hrun, hctr, -, -, -⟩ :=
    scp03_run_counter aesE cmacF (cmds.take k) s1 ke km
      (fun x hx => hsel x (List.take_subset k cmds hx))
      (fun x hx => hlen x (List.take_subset k cmds hx))
      (he1.trans he) hm1 ha1
  refine ⟨s1, apdu, hauth, hctr1, sk, sents, hrun, ?_⟩
  rw [hctr, hctr1, List.length_take]
  omega

/-- Witness for C3 at a concrete two-command session. -/
theorem scp03_counter_monotonic_witness :
    (({ sec_level := 0, session_enc := some (List.replicate 16 0x40),
        session_mac := some (List.replicate 16 0x40),
        mac_chain := List.replicate 16 0, encryption_counter := 0,
        is_mutually_authenticated := false, challenges_len := 8, mac_len := 8,
        host_challenge := List.replicate 8 0, card_challenge := List.replicate 8 0,
        i_param := 0x70 } : SCP03State).session_enc = some (List.replicate 16 0x40)) ∧
    (∀ c ∈ [[0x80, 0xF2, 0x80, 0x02, 0x00], [0x80, 0xE4, 0x00, 0x80, 0x02, 0x4F, 0x00]],
      c.take 3 ≠ [0x00, 0xA4, 0x04]) ∧
    (∀ c ∈ [[0x80, 0xF2, 0x80, 0x02, 0x00], [0x80, 0xE4, 0x00, 0x80, 0x02, 0x4F, 0x00]],
      5 ≤ c.length) ∧
    (∃ s1 apdu,
      scp03_external_authenticate (fun _ _ => List.replicate 16 0)
        { sec_level := 0, session_enc := some (List.replicate 16 0x40),
          session_mac := some (List.replicate 16 0x40),
          mac_chain := List.replicate 16 0, encryption_counter := 0,
          is_mutually_authenticated := false, challenges_len := 8, mac_len := 8,
          host_challenge := List.replicate 8 0, card_challenge := List.replicate 8 0,
          i_param := 0x70 } 0x03 0x90 0x00 = some (s1, true, apdu) ∧
      s1.encryption_counter = 1 ∧
      ∃ sk sents,
        scp03_run (fun _ _ => List.replicate 16 0) (fun _ _ => List.replicate 16 0) s1
          ([[0x80, 0xF2, 0x80, 0x02, 0x00],
            [0x80, 0xE4, 0x00, 0x80, 0x02, 0x4F, 0x00]].take 2) = some (sk, sents) ∧
        sk.encryption_counter = 2 + 1) := by
  refine ⟨rfl, by decide, by decide, ?_⟩
  exact scp03_counter_monotonic (fun _ _ => List.replicate 16 0)
    (fun _ _ => List.replicate 16 0) _ 0x03 _ 2 _ _ rfl rfl
    (by decide) (by decide) (by decide)

/-- C1.  Evaluating `SCP03.send_secure_apdu` at security level
C-MAC+C-DECRYPTION on a command with a non-empty data field: the data is
encrypted with AES-CBC under the session ENC key using as IV the *raw*
encryption counter rendered as 16 big-endian bytes (the counter is *not*
first passed through AES-ECB).  The second conjunct exhibits, with a concrete
stand-in block cipher, that the raw-counter IV yields a different ciphertext
from the encrypted-counter IV required by the claim. -/
theorem scp03_c_dec_iv_is_raw_counter :
    (∀ aesE cmacF : List Nat → List Nat → List Nat, ∀ ke km chain : List Nat, ∀ ctr : Nat,
      scp03_send_secure_apdu aesE cmacF
        { sec_level := 0x03, session_enc := some ke, session_mac := some km,
          mac_chain := chain, encryption_counter := ctr,
          is_mutually_authenticated := true, challenges_len := 8, mac_len := 8,
          host_challenge := [], card_challenge := [], i_param := 0x70 }
        [0x80, 0xE6, 0x02, 0x00, 0x01, 0xAA] =
      (let enc := cbcEncrypt aesE 16 ke (natToBytesBE 16 ctr) (pad80 16 [0xAA])
       let chain1 := cmacF km (chain ++ ([0x84, 0xE6, 0x02, 0x00, enc.length + 8] ++ enc))
       some ({ sec_level := 0x03, session_enc := some ke, session_mac := some km,
               mac_chain := chain1, encryption_counter := ctr + 1,
               is_mutually_authenticated := true, challenges_len := 8, mac_len := 8,
               host_challenge := [], card_challenge := [], i_param := 0x70 },
         [0x84, 0xE6, 0x02, 0x00, (enc ++ chain1.take 8).length] ++ enc ++ chain1.take 8))) ∧
    cbcEncrypt toyBlockCipher 16 (List.replicate 16 0x40) (natToBytesBE 16 1)
        (pad80 16 [0xAA]) ≠
      cbcEncrypt toyBlockCipher 16 (List.replicate 16 0x40)
        (toyBlockCipher (List.replicate 16 0x40) (natToBytesBE 16 1))
        (pad80 16 [0xAA]) := by
  constructor
  · intro aesE cmacF ke km chain ctr
    simp only [scp03_send_secure_apdu, scp03_calc_mac]
    norm_num
    rw [if_neg (by decide : ¬((3 : Nat) &&& (2 : Nat) = 0))]
    rfl
  · decide

/-- C4.  Evaluating the INITIALIZE UPDATE request builder of
`SCP03.initialize_update` in S16 mode (i-parameter 0x71, low bit set): the
state records `challenges_len = 16`, yet the APDU sent is
`80 50 00 00 08` followed by the fixed 8-byte challenge `AC0C5EFFBFC1E314`
that line 220 of scp03.py hard-codes over the random challenge — not a
16-byte host challenge. -/
theorem scp03_init_update_s16_challenge :
    ((scp03_init_update_request
        { sec_level := 0, session_enc := none, session_mac := none,
          mac_chain := List.replicate 16 0, encryption_counter := 0,
          is_mutually_authenticated := false, challenges_len := 0, mac_len := 0,
          host_challenge := [], card_challenge := [], i_param := 0x71 }).1.challenges_len
        = 16) ∧
    (scp03_init_update_request
        { sec_level := 0, session_enc := none, session_mac := none,
          mac_chain := List.replicate 16 0, encryption_counter := 0,
          is_mutually_authenticated := false, challenges_len := 0, mac_len := 0,
          host_challenge := [], card_challenge := [], i_param := 0x71 }).2
      = [0x80, 0x50, 0x00, 0x00, 0x08, 0xAC, 0x0C, 0x5E, 0xFF, 0xBF, 0xC1, 0xE3, 0x14] := by
  exact ⟨rfl, rfl⟩

/-! ### SCP02 theorems -/

/-- C2.  With static ENC = MAC = DEK = `404142434445464748494A4B4C4D4E4F`,
sequence counter `0060`, host challenge `0001020304050607` and card
challenge `0A0B0C0D0E0F`, and for every 3DES block primitive: the engine's
ENC session key equals 3DES-CBC(static_ENC, zero IV,
`0182 ‖ 0060 ‖ 12 zero bytes`) expanded to 24 bytes by appending its first
8 bytes, and `external_authenticate` sends a host cryptogram (APDU data
bytes 0-7) equal to the last 8 bytes of 3DES-CBC-encrypt(S_ENC, zero IV,
`0060 ‖ 0A0B0C0D0E0F ‖ 0001020304050607 ‖ 8000000000000000`). -/
theorem scp02_session_key_and_host_cryptogram
    (des3E desE desD : List Nat → List Nat → List Nat)
    (smac : List Nat) (lastMac : Option (List Nat)) (lvl : Nat) :
    (scp02_derive_session_enc des3E
        { sec_level := 0, static_enc := [0x40, 0x41, 0x42, 0x43, 0x44, 0x45, 0x46, 0x47,
            0x48, 0x49, 0x4A, 0x4B, 0x4C, 0x4D, 0x4E, 0x4F],
          static_mac := [], static_dek := [], session_enc := none, session_mac := none,
          session_dek := none, last_mac := none, sequence_counter := [0x00, 0x60],
          card_challenge := [0x0A, 0x0B, 0x0C, 0x0D, 0x0E, 0x0F],
          host_challenge := [0x00, 0x01, 0x02, 0x03, 0x04, 0x05, 0x06, 0x07] } =
      (let p := cbcEncrypt des3E 8
          [0x40, 0x41, 0x42, 0x43, 0x44, 0x45, 0x46, 0x47,
           0x48, 0x49, 0x4A, 0x4B, 0x4C, 0x4D, 0x4E, 0x4F]
          (List.replicate 8 0)
          ([0x01, 0x82] ++ [0x00, 0x60] ++ List.replicate 12 0)
       p ++ p.take 8)) ∧
    (∀ senc : List Nat,
      scp02_external_authenticate desE desD des3E
        { sec_level := 0, static_enc := [], static_mac := [], static_dek := [],
          session_enc := some senc, session_mac := some smac, session_dek := none,
          last_mac := lastMac, sequence_counter := [0x00, 0x60],
          card_challenge := [0x0A, 0x0B, 0x0C, 0x0D, 0x0E, 0x0F],
          host_challenge := [0x00, 0x01, 0x02, 0x03, 0x04, 0x05, 0x06, 0x07] }
        lvl 0x90 0x00 =
      (let cg := takeLast 8 (cbcEncrypt des3E 8 senc (List.replicate 8 0)
          ([0x00, 0x60] ++ [0x0A, 0x0B, 0x0C, 0x0D, 0x0E, 0x0F] ++
           [0x00, 0x01, 0x02, 0x03, 0x04, 0x05, 0x06, 0x07] ++
           [0x80, 0x00, 0x00, 0x00, 0x00, 0x00, 0x00, 0x00]))
       let mk := scp02_calc_mac desE desD smac lastMac ([0x84, 0x82, lvl, 0x00, 0x10] ++ cg)
       some ({ sec_level := lvl, static_enc := [], static_mac := [], static_dek := [],
               session_enc := some senc, session_mac := some smac, session_dek := none,
               last_mac := some mk.2, sequence_counter := [0x00, 0x60],
               card_challenge := [0x0A, 0x0B, 0x0C, 0x0D, 0x0E, 0x0F],
               host_challenge := [0x00, 0x01, 0x02, 0x03, 0x04, 0x05, 0x06, 0x07] },
         true, [0x84, 0x82, lvl, 0x00, 0x10] ++ cg ++ mk.1))) := by
  constructor
  · rfl
  · intro senc
    rfl

/-- C5.  For both secure-channel engines, in any state and at any security
level, passing a SELECT APDU (header bytes `00 A4 04`, at least 5 bytes
long) through `send_secure_apdu` resets the session — security level 0,
session keys dropped, MAC chain / last MAC reset, not authenticated — and
transmits the SELECT command unmodified (CLA byte untouched, no MAC
appended). -/
theorem select_resets_secure_channel :
    (∀ aesE cmacF : List Nat → List Nat → List Nat, ∀ s : SCP03State, ∀ cmd : List Nat,
      cmd.take 3 = [0x00, 0xA4, 0x04] → 5 ≤ cmd.length →
        scp03_send_secure_apdu aesE cmacF s cmd = some (scp03_reset_session s, cmd) ∧
        (scp03_reset_session s).is_mutually_authenticated = false ∧
        (scp03_reset_session s).sec_level = 0 ∧
        (scp03_reset_session s).session_enc = none ∧
        (scp03_reset_session s).session_mac = none) ∧
    (∀ desE desD des3E : List Nat → List Nat → List Nat, ∀ s : SCP02State, ∀ cmd : List Nat,
      cmd.take 3 = [0x00, 0xA4, 0x04] → 5 ≤ cmd.length →
        scp02_send_secure_apdu desE desD des3E s cmd = some (scp02_reset_session s, cmd) ∧
        (scp02_reset_session s).sec_level = 0 ∧
        (scp02_reset_session s).session_enc = none ∧
        (scp02_reset_session s).session_mac = none ∧
        (scp02_reset_session s).last_mac = none) := by
  constructor
  · intro aesE cmacF s cmd hsel hlen
    refine ⟨?_, rfl, rfl, rfl, rfl⟩
    match cmd, hlen with
    | c0 :: c1 :: c2 :: c3 :: c4 :: rest, _ =>
      rw [scp03_send_secure_apdu, if_pos hsel]
      simp [scp03_reset_session]
  · intro desE desD des3E s cmd hsel hlen
    refine ⟨?_, rfl, rfl, rfl, rfl⟩
    match cmd, hlen with
    | c0 :: c1 :: c2 :: c3 :: c4 :: rest, _ =>
      rw [scp02_send_secure_apdu, if_pos hsel]
      simp [scp02_reset_session]

/-- Witness for C5 at a concrete SELECT APDU and concrete session states. -/
theorem select_resets_secure_channel_witness :
    (([0x00, 0xA4, 0x04, 0x00, 0x07, 0xA0, 0x00, 0x00, 0x01, 0x51, 0x00, 0x00] :
        List Nat).take 3 = [0x00, 0xA4, 0x04]) ∧
    (5 ≤ ([0x00, 0xA4, 0x04, 0x00, 0x07, 0xA0, 0x00, 0x00, 0x01, 0x51, 0x00, 0x00] :
        List Nat).length) ∧
    (scp03_send_secure_apdu (fun _ _ => List.replicate 16 0) (fun _ _ => List.replicate 16 0)
        { sec_level := 0x03, session_enc := some (List.replicate 16 0x40),
          session_mac := some (List.replicate 16 0x40),
          mac_chain := List.replicate 16 0, encryption_counter := 5,
          is_mutually_authenticated := true, challenges_len := 8, mac_len := 8,
          host_challenge := List.replicate 8 0, card_challenge := List.replicate 8 0,
          i_param := 0x70 }
        [0x00, 0xA4, 0x04, 0x00, 0x07, 0xA0, 0x00, 0x00, 0x01, 0x51, 0x00, 0x00] =
      some (scp03_reset_session
        { sec_level := 0x03, session_enc := some (List.replicate 16 0x40),
          session_mac := some (List.replicate 16 0x40),
          mac_chain := List.replicate 16 0, encryption_counter := 5,
          is_mutually_authenticated := true, challenges_len := 8, mac_len := 8,
          host_challenge := List.replicate 8 0, card_challenge := List.replicate 8 0,
          i_param := 0x70 },
        [0x00, 0xA4, 0x04, 0x00, 0x07, 0xA0, 0x00, 0x00, 0x01, 0x51, 0x00, 0x00])) ∧
    (scp02_send_secure_apdu (fun _ _ => List.replicate 8 0) (fun _ _ => List.replicate 8 0)
        (fun _ _ => List.replicate 8 0)
        { sec_level := 0x01, static_enc := List.replicate 16 0x40,
          static_mac := List.replicate 16 0x40, static_dek := List.replicate 16 0x40,
          session_enc := some (List.replicate 24 0x40),
          session_mac := some (List.replicate 24 0x40),
          session_dek := some (List.replicate 24 0x40),
          last_mac := some (List.replicate 8 0x11), sequence_counter := [0x00, 0x60],
          card_challenge := List.replicate 6 0, host_challenge := List.replicate 8 0 }
        [0x00, 0xA4, 0x04, 0x00, 0x07, 0xA0, 0x00, 0x00, 0x01, 0x51, 0x00, 0x00] =
      some (scp02_reset_session
        { sec_level := 0x01, static_enc := List.replicate 16 0x40,
          static_mac := List.replicate 16 0x40, static_dek := List.replicate 16 0x40,
          session_enc := some (List.replicate 24 0x40),
          session_mac := some (List.replicate 24 0x40),
          session_dek := some (List.replicate 24 0x40),
          last_mac := some (List.replicate 8 0x11), sequence_counter := [0x00, 0x60],
          card_challenge := List.replicate 6 0, host_challenge := List.replicate 8 0 },
        [0x00, 0xA4, 0x04, 0x00, 0x07, 0xA0, 0x00, 0x00, 0x01, 0x51, 0x00, 0x00])) := by
  refine ⟨by decide, by decide, ?_, ?_⟩
  · exact (select_resets_secure_channel.1 _ _ _ _ (by decide) (by decide)).1
  · exact (select_resets_secure_channel.2 _ _ _ _ _ (by decide) (by decide)).1

/-- C6.  Evaluating `SCP02.send_secure_apdu` at security level
C-MAC+C-DECRYPTION on commands whose data field is 0-5 bytes long (`Lc ≤ 5`):
the source encrypts only when `lc > 5`, yet the C-MAC+C-DECRYPTION branch
always reads `encrypted_data`, so the call raises `UnboundLocalError`
(embedded as `none`) instead of padding and encrypting the short body. -/
theorem scp02_c_dec_short_data_crash :
    ∀ desE desD des3E : List Nat → List Nat → List Nat,
      ∀ smac senc : List Nat, ∀ lastMac : Option (List Nat),
        scp02_send_secure_apdu desE desD des3E
          { sec_level := 0x03, static_enc := [], static_mac := [], static_dek := [],
            session_enc := some senc, session_mac := some smac, session_dek := none,
            last_mac := lastMac, sequence_counter := [0x00, 0x60],
            card_challenge := [], host_challenge := [] }
          [0x80, 0xE4, 0x00, 0x80, 0x02, 0x4F, 0x00] = none ∧
        scp02_send_secure_apdu desE desD des3E
          { sec_level := 0x03, static_enc := [], static_mac := [], static_dek := [],
            session_enc := some senc, session_mac := some smac, session_dek := none,
            last_mac := lastMac, sequence_counter := [0x00, 0x60],
            card_challenge := [], host_challenge := [] }
          [0x80, 0xE6, 0x02, 0x00, 0x00] = none := by
  intro desE desD des3E smac senc lastMac
  constructor <;> simp [scp02_send_secure_apdu, scp02_calc_mac]

/-! ### Registry theorems (C9, C10) -/

/-- C9, counterexample.  Decoding the spec's literal modern-form example
bytes with the gpdata.py registry decoder does not yield the claimed
application record: the example's TLV lengths are inconsistent (`4F 08` for
a 7-byte AID pulls the following `9F` byte into the AID, after which a
constructed `70 01 07` node is parsed and its one-byte body fails to parse),
so the decoder raises instead of returning any record. -/
theorem c9_literal_input_does_not_decode :
    gpdata_get_parsed_gp_registry_info c9_literal_input simple_flat_pkgs = none := by
  decide

/-- C9, amended.  With the TLV lengths made consistent (`E3 1B`, `4F 07`,
`C4 08`) and privilege bytes `80 80`, the gpdata.py registry decoder yields
the application record `aid = A0000000030000`, life cycle `SELECTABLE`,
privileges rendered as the string "Security Domain, Trusted Path", and
associated package `A000000151000000`. -/
theorem c9_fixed_input_decodes :
    gpdata_get_parsed_gp_registry_info c9_fixed_input simple_flat_pkgs =
      some (pyList [pyList [pyBytes [0xA0, 0x00, 0x00, 0x00, 0x03, 0x00, 0x00],
                            .str "SELECTABLE", .str "Security Domain, Trusted Path",
                            pyBytes [0xA0, 0x00, 0x00, 0x01, 0x51, 0x00, 0x00, 0x00]]],
            pyList [pyList [pyBytes [0x01, 0x02, 0x03, 0x04, 0x05], .str "LOADED",
                            pyList [], .str "-"]]) := by
  decide

/-- C10, counterexample.  On a well-formed modern-form application stream
whose life-cycle tag is the real `9F70`, the two implementations of
`get_parsed_gp_registry_info` disagree: gpdata.py decodes the life cycle
(`SELECTABLE`), while gpregistry.py only maps tag `9F7F` to `life_cycle`
and therefore reports `"-"`. -/
theorem registry_decoders_disagree_on_modern :
    gpdata_get_parsed_gp_registry_info c10_modern_apps simple_flat_pkgs =
      some (pyList [pyList [pyBytes [0xA0, 0x00, 0x00, 0x00, 0x03, 0x00, 0x00],
              .str "SELECTABLE",
              .str "Security Domain, Card Lock, Card Terminate, Card Reset, CVM Management, Trusted Path",
              pyBytes []]],
            pyList [pyList [pyBytes [0x01, 0x02, 0x03, 0x04, 0x05], .str "LOADED",
              pyList [], .str "-"]]) ∧
    gpregistry_get_parsed_gp_registry_info c10_modern_apps simple_flat_pkgs =
      some (pyList [pyList [pyBytes [0xA0, 0x00, 0x00, 0x00, 0x03, 0x00, 0x00],
              .str "-",
              .str "Security Domain, Card Lock, Card Terminate, Card Reset, CVM Management, Trusted Path",
              pyBytes []]],
            pyList [pyList [pyBytes [0x01, 0x02, 0x03, 0x04, 0x05], .str "LOADED",
              pyList [], .str "-"]]) ∧
    gpdata_get_parsed_gp_registry_info c10_modern_apps simple_flat_pkgs ≠
      gpregistry_get_parsed_gp_registry_info c10_modern_apps simple_flat_pkgs := by
  refine ⟨by decide, by decide, by decide⟩

/-- C10, amended.  On every deprecated flat-form input (neither stream
starts with the `E3` tag), the two implementations of
`get_parsed_gp_registry_info` — whose deprecated branches are textually
identical — return the same application and package records. -/
theorem registry_decoders_agree_on_deprecated (apps pkgs : List Nat)
    (ha : apps.head? ≠ some 0xE3) (hp : pkgs.head? ≠ some 0xE3) :
    gpdata_get_parsed_gp_registry_info apps pkgs =
      gpregistry_get_parsed_gp_registry_info apps pkgs := by
  unfold gpdata_get_parsed_gp_registry_info gpregistry_get_parsed_gp_registry_info
  cases happs : apps.head? with
  | none => rfl
  | some a =>
    have hane : a ≠ 0xE3 := fun h => ha (by rw [happs, h])
    cases hpkgs : pkgs.head? with
    | none => simp [if_neg hane]
    | some p =>
      have hpne : p ≠ 0xE3 := fun h => hp (by rw [hpkgs, h])
      simp [if_neg hane, if_neg hpne]

/-- Witness for the amended C10 at concrete deprecated-form inputs. -/
theorem registry_decoders_agree_on_deprecated_witness :
    (([0x07, 0xA0, 0x00, 0x00, 0x00, 0x03, 0x00, 0x00, 0x07, 0x9E] : List Nat).head?
        ≠ some 0xE3) ∧
    (simple_flat_pkgs.head? ≠ some 0xE3) ∧
    gpdata_get_parsed_gp_registry_info
        [0x07, 0xA0, 0x00, 0x00, 0x00, 0x03, 0x00, 0x00, 0x07, 0x9E] simple_flat_pkgs =
      gpregistry_get_parsed_gp_registry_info
        [0x07, 0xA0, 0x00, 0x00, 0x00, 0x03, 0x00, 0x00, 0x07, 0x9E] simple_flat_pkgs :=
  ⟨by decide, by decide,
    registry_decoders_agree_on_deprecated
      [0x07, 0xA0, 0x00, 0x00, 0x00, 0x03, 0x00, 0x00, 0x07, 0x9E] simple_flat_pkgs
      (by decide) (by decide)⟩

end Capastrophic
